import Mathlib

/-!
Shallow embedding of `src/student_b/tax_client.py` (class `TaxAuthorityClient`):
schema validation of invoice documents, single-attempt submission with
response classification, and retry with exponential backoff.

The network is modelled by a `NetResult` oracle describing what the single
HTTP POST of an attempt produces (a response with a status code, a declared
content type and a body that either parses as JSON or not, or one of the
exceptions the Python code catches).  Observable I/O actions (the POST itself
and the `time.sleep` calls of the retry loop) are recorded in an event trace.
Python dicts/JSON values are modelled by the `Json` inductive; Python
truthiness by `Json.truthy`.
-/

namespace MpepoTax

/-- Model of a Python/JSON value as manipulated by `tax_client.py`
(invoice documents, response bodies, outcome field values).
Numbers are modelled as integers; their numeric value is never used by the
client except for truthiness. -/
inductive Json where
  | null : Json
  | bool (b : Bool) : Json
  | num (n : Int) : Json
  | str (s : String) : Json
  | arr (elems : List Json) : Json
  | obj (fields : List (String × Json)) : Json

/-- Membership test `k in d` for a value (Python `in`): key lookup on a
dict, element equality on a list.  Non-container operands give `false`
(Python would raise `TypeError` there; the client only applies `in` to the
dict-shaped documents and items of an invoice). -/
def Json.hasKey (j : Json) (k : String) : Bool :=
  match j with
  | Json.obj kvs => kvs.any (fun kv => kv.1 == k)
  | Json.arr xs => xs.any (fun x => match x with | Json.str s => s == k | _ => false)
  | _ => false

/-- Lookup `d[k]` / `d.get(k)` on an object, `none` when absent. -/
def Json.get? (j : Json) (k : String) : Option Json :=
  match j with
  | Json.obj kvs => (kvs.find? (fun kv => kv.1 == k)).map (fun kv => kv.2)
  | _ => none

/-- Lookup `d[k]`, with Python's `None`-like `null` when absent. -/
def Json.get (j : Json) (k : String) : Json :=
  (j.get? k).getD Json.null

/-- Python `d.get(k, default)`. -/
def Json.getD (j : Json) (k : String) (d : Json) : Json :=
  (j.get? k).getD d

/-- Python truthiness of a value (`bool(v)`). -/
def Json.truthy : Json → Bool
  | Json.null => false
  | Json.bool b => b
  | Json.num n => n != 0
  | Json.str s => !s.isEmpty
  | Json.arr xs => !xs.isEmpty
  | Json.obj kvs => !kvs.isEmpty

/-- View a value as a list (iteration / `len` in the Python code; the client
only iterates over `items`, which the schema expects to be a list). -/
def Json.asArr : Json → List Json
  | Json.arr xs => xs
  | _ => []

/-- Python single-quote character, built by code point to keep the file free
of quote-character literals. -/
def sq : String := String.mk [Char.ofNat 39]

mutual

/-- Python `repr` of a JSON-shaped value (used by `str` on containers). -/
def Json.pyRepr : Json → String
  | Json.null => "None"
  | Json.bool b => if b then "True" else "False"
  | Json.num n => toString n
  | Json.str s => sq ++ s ++ sq
  | Json.arr xs => "[" ++ Json.pyReprList xs ++ "]"
  | Json.obj kvs => "\x7b" ++ Json.pyReprObj kvs ++ "\x7d"

/-- Comma-separated reprs of list elements. -/
def Json.pyReprList : List Json → String
  | [] => ""
  | [x] => Json.pyRepr x
  | x :: y :: rest => Json.pyRepr x ++ ", " ++ Json.pyReprList (y :: rest)

/-- Comma-separated reprs of dict entries. -/
def Json.pyReprObj : List (String × Json) → String
  | [] => ""
  | [(k, v)] => sq ++ k ++ sq ++ ": " ++ Json.pyRepr v
  | (k, v) :: p :: rest =>
      sq ++ k ++ sq ++ ": " ++ Json.pyRepr v ++ ", " ++ Json.pyReprObj (p :: rest)

end

/-- Python `str(v)` as used in f-string interpolation. -/
def Json.pyStr : Json → String
  | Json.str s => s
  | j => Json.pyRepr j

/-- Decide whether the character list `p` starts the character list `l`. -/
def charsLead : List Char → List Char → Bool
  | [], _ => true
  | _ :: _, [] => false
  | a :: as, b :: bs => a == b && charsLead as bs

/-- Python `s.startswith(p)`. -/
def strStartsWith (s p : String) : Bool :=
  charsLead p.data s.data

/-- Decide whether the character list `needle` occurs contiguously in `hay`. -/
def charsContain : List Char → List Char → Bool
  | [], needle => needle.isEmpty
  | h :: t, needle => charsLead needle (h :: t) || charsContain t needle

/-- Python `sub in s` for strings (substring test). -/
def strContains (s sub : String) : Bool :=
  charsContain s.data sub.data

/-- Observable I/O actions of the client: the HTTP POST of an attempt and a
`time.sleep(n)` of the retry loop. -/
inductive NetEvent where
  | post : NetEvent
  | sleep (n : Nat) : NetEvent
deriving DecidableEq, Repr

/-- What the HTTP POST of one attempt produces: a response (status code,
declared content type, and a body that parses as JSON — `some` — or raises
`json.JSONDecodeError` — `none`), or one of the exceptions caught by
`submit_invoice` (`requests.exceptions.Timeout`,
`requests.exceptions.ConnectionError`, or any other `Exception` with its
`str(e)` description). -/
inductive NetResult where
  | response (status_code : Nat) (content_type : String) (body : Option Json) : NetResult
  | timeout : NetResult
  | connection_error : NetResult
  | unexpected_error (description : String) : NetResult

/-- The outcome dict built by `submit_invoice`.  Keys absent from a branch's
dict literal are `none`.  `status`, `message`, `tax_authority_id` hold raw
JSON values because the 200-branch copies them from the response body
unchanged (`result.get(...)`). -/
structure Outcome where
  success : Bool
  status : Json
  error : Option String
  message : Json
  data : Option Json
  tax_authority_id : Option Json
  submitted_at : Option String

/-- One entry of the `attempts` history of `submit_invoice_with_retry`:
the per-attempt outcome dict, tagged with `attempt_number = attempt + 1`. -/
structure AttemptOutcome where
  outcome : Outcome
  attempt_number : Nat

/-- The dict returned by `submit_invoice_with_retry`: the final outcome's
fields plus the retry bookkeeping keys.  `attempt_number` is `none` only for
the exhaustion dict built after the loop, which never carries that key. -/
structure RetryOutcome where
  outcome : Outcome
  attempt_number : Option Nat
  total_attempts : Nat
  all_attempts : List AttemptOutcome

/-- Lines 46, 72, 80 of `tax_client.py`: the three required-field lists. -/
def required_fields : List String :=
  ["invoice_id", "business_info", "transaction_date", "items", "summary"]

/-- Required per-item fields. -/
def required_item_fields : List String :=
  ["description", "quantity", "unit_price", "tax_rate"]

/-- Required summary fields. -/
def required_summary_fields : List String :=
  ["subtotal", "tax_amount", "total_amount", "currency"]

/-- Failure message of the top-level required-field loop. -/
def topMsg (f : String) : String := "Missing required field: " ++ f

/-- Failure message of the per-item required-field loop. -/
def itemMsg (i : Nat) (f : String) : String :=
  "Item " ++ toString i ++ " missing required field: " ++ f

/-- Failure message of the summary required-field loop. -/
def summaryMsg (f : String) : String := "Summary missing required field: " ++ f

/-- One `for field in fields: if field not in d: return msg(field)` loop of
`validate_invoice_schema`. -/
def firstMissing (d : Json) (msg : String → String) : List String → Option String
  | [] => none
  | f :: rest => if d.hasKey f then firstMissing d msg rest else some (msg f)

/-- The `for i, item in enumerate(items)` loop of `validate_invoice_schema`,
started at index `i`. -/
def checkItems : Nat → List Json → Option String
  | _, [] => none
  | i, item :: rest =>
    match firstMissing item (itemMsg i) required_item_fields with
    | some m => some m
    | none => checkItems (i + 1) rest

/-- Lines 42-88 of `tax_client.py`: `validate_invoice_schema`.  Returns
`(is_valid, message)`; short-circuits at the first failing check. -/
def validate_invoice_schema (invoice_data : Json) : Bool × String :=
  match firstMissing invoice_data topMsg required_fields with
  | some m => (false, m)
  | none =>
    let business_info := invoice_data.get "business_info"
    if !(business_info.hasKey "tin" && (business_info.get "tin").truthy) then
      (false, "Missing TIN in business_info")
    else if !(business_info.hasKey "business_name" &&
              (business_info.get "business_name").truthy) then
      (false, "Missing business_name in business_info")
    else
      let items := invoice_data.get "items"
      if !items.truthy || items.asArr.length == 0 then
        (false, "Invoice must contain at least one item")
      else
        match checkItems 0 items.asArr with
        | some m => (false, m)
        | none =>
          match firstMissing (invoice_data.get "summary") summaryMsg
              required_summary_fields with
          | some m => (false, m)
          | none => (true, "Validation successful")

/-- Line 221 of `tax_client.py`: `non_retryable_errors`. -/
def non_retryable_errors : List String :=
  ["invalid_schema", "validation_error", "invalid_json"]

/-- Python `result.get("error") in non_retryable_errors` (absent key gives
`None`, which is not in the list). -/
def Outcome.nonRetryableB (o : Outcome) : Bool :=
  match o.error with
  | some e => non_retryable_errors.contains e
  | none => false

/-- Condition under which the retry loop returns early at an attempt:
the attempt succeeded, or its error is non-retryable. -/
def Outcome.stopB (o : Outcome) : Bool :=
  o.success || o.nonRetryableB

/-- Lines 90-196 of `tax_client.py`: `submit_invoice`.  `net` is what the
POST of this call produces; `now` is `time.strftime(...)` at this call.
Also returns the trace of I/O events of the call ( `[]` or `[post]` ). -/
def submit_invoice (invoice_data : Json) (net : NetResult) (now : String) :
    Outcome × List NetEvent :=
  let v := validate_invoice_schema invoice_data
  if v.1 then
    match net with
    | NetResult.response sc ct body =>
      if strStartsWith ct "application/json" then
        match body with
        | some result =>
          if sc == 200 then
            ({ success := true,
               status := result.getD "status" (Json.str "approved"),
               error := none,
               message := result.getD "message"
                 (Json.str "Invoice submitted successfully to tax authority"),
               data := some result,
               tax_authority_id := some (result.getD "tax_authority_id" (Json.str "Unknown")),
               submitted_at := some now }, [NetEvent.post])
          else if sc == 400 then
            ({ success := false,
               status := Json.str "failed",
               error := some "validation_error",
               message := Json.str ("Tax authority validation failed: " ++
                 (result.getD "error" (Json.str "Validation error")).pyStr),
               data := none,
               tax_authority_id := none,
               submitted_at := none }, [NetEvent.post])
          else
            ({ success := false,
               status := Json.str "failed",
               error := some ("http_error_" ++ toString sc),
               message := Json.str ("Tax authority returned error: " ++ toString sc),
               data := none,
               tax_authority_id := none,
               submitted_at := none }, [NetEvent.post])
        | none =>
          ({ success := false,
             status := Json.str "failed",
             error := some "invalid_json",
             message := Json.str "Tax authority returned invalid JSON response",
             data := none,
             tax_authority_id := none,
             submitted_at := none }, [NetEvent.post])
      else
        ({ success := false,
           status := Json.str "failed",
           error := some "invalid_response",
           message := Json.str ("Server returned non-JSON response: " ++ toString sc),
           data := none,
           tax_authority_id := none,
           submitted_at := none }, [NetEvent.post])
    | NetResult.timeout =>
      ({ success := false,
         status := Json.str "failed",
         error := some "timeout",
         message := Json.str "Tax authority server timeout",
         data := none,
         tax_authority_id := none,
         submitted_at := none }, [NetEvent.post])
    | NetResult.connection_error =>
      ({ success := false,
         status := Json.str "failed",
         error := some "connection_error",
         message := Json.str "Cannot connect to tax authority service",
         data := none,
         tax_authority_id := none,
         submitted_at := none }, [NetEvent.post])
    | NetResult.unexpected_error d =>
      ({ success := false,
         status := Json.str "failed",
         error := some "unexpected_error",
         message := Json.str ("Unexpected error occurred: " ++ d),
         data := none,
         tax_authority_id := none,
         submitted_at := none }, [NetEvent.post])
  else
    ({ success := false,
       status := Json.str "failed",
       error := some "invalid_schema",
       message := Json.str v.2,
       data := none,
       tax_authority_id := none,
       submitted_at := none }, [])

/-- The dict built after the loop of `submit_invoice_with_retry` exhausts. -/
def exhaustOutcome (max_retries : Nat) : Outcome :=
  { success := false,
    status := Json.str "failed",
    error := some "all_retries_failed",
    message := Json.str ("All " ++ toString max_retries ++ " retry attempts failed"),
    data := none,
    tax_authority_id := none,
    submitted_at := none }

/-- The `for attempt in range(max_retries)` loop of
`submit_invoice_with_retry`, with `remaining` iterations left, currently at
0-based index `attempt`, with history `attempts` and event trace `evs`
accumulated so far.  `net i` / `now i` are the network oracle and clock for
the attempt of index `i`. -/
def retryGo (invoice_data : Json) (net : Nat → NetResult) (now : Nat → String)
    (max_retries : Nat) :
    Nat → Nat → List AttemptOutcome → List NetEvent → RetryOutcome × List NetEvent
  | 0, _, attempts, evs =>
    ({ outcome := exhaustOutcome max_retries,
       attempt_number := none,
       total_attempts := max_retries,
       all_attempts := attempts }, evs)
  | remaining + 1, attempt, attempts, evs =>
    let r := submit_invoice invoice_data (net attempt) (now attempt)
    let result := r.1
    let evs1 := evs ++ r.2
    let attempts1 := attempts ++ [{ outcome := result, attempt_number := attempt + 1 }]
    if result.success then
      ({ outcome := result,
         attempt_number := some (attempt + 1),
         total_attempts := attempt + 1,
         all_attempts := attempts1 }, evs1)
    else if result.nonRetryableB then
      ({ outcome := result,
         attempt_number := some (attempt + 1),
         total_attempts := attempt + 1,
         all_attempts := attempts1 }, evs1)
    else
      let evs2 := if attempt < max_retries - 1
        then evs1 ++ [NetEvent.sleep (2 ^ attempt)]
        else evs1
      retryGo invoice_data net now max_retries remaining (attempt + 1) attempts1 evs2

/-- Lines 198-241 of `tax_client.py`: `submit_invoice_with_retry`.  Returns
the final dict together with the trace of I/O events of the whole call. -/
def submit_invoice_with_retry (invoice_data : Json) (net : Nat → NetResult)
    (now : Nat → String) (max_retries : Nat) : RetryOutcome × List NetEvent :=
  retryGo invoice_data net now max_retries max_retries 0 [] []

/-- Outcome of the attempt with 0-based index `i` of a retry sequence. -/
def attemptOut (inv : Json) (net : Nat → NetResult) (now : Nat → String) (i : Nat) : Outcome :=
  (submit_invoice inv (net i) (now i)).1

/-- I/O events of the attempt with 0-based index `i` of a retry sequence. -/
def attemptEvs (inv : Json) (net : Nat → NetResult) (now : Nat → String) (i : Nat) :
    List NetEvent :=
  (submit_invoice inv (net i) (now i)).2

/-- The attempt with 0-based index `i` fails and its error is retryable
(not in `non_retryable_errors`). -/
def retryableFailedAtB (inv : Json) (net : Nat → NetResult) (now : Nat → String)
    (i : Nat) : Bool :=
  !(attemptOut inv net now i).success && !(attemptOut inv net now i).nonRetryableB

/-- History entry of the attempt with 0-based index `i` (1-based
`attempt_number`). -/
def mkAttempt (inv : Json) (net : Nat → NetResult) (now : Nat → String) (i : Nat) :
    AttemptOutcome :=
  { outcome := attemptOut inv net now i, attempt_number := i + 1 }

/-- I/O events contributed by a non-terminal attempt of index `i` of the
retry loop: the attempt's own events, then the backoff sleep when further
attempts remain. -/
def attemptTrace (inv : Json) (net : Nat → NetResult) (now : Nat → String)
    (max_retries i : Nat) : List NetEvent :=
  attemptEvs inv net now i ++
    (if i < max_retries - 1 then [NetEvent.sleep (2 ^ i)] else [])

/-- Durations of the sleep events of a trace, in order. -/
def sleepDurations (evs : List NetEvent) : List Nat :=
  evs.filterMap (fun e => match e with | NetEvent.sleep n => some n | _ => none)

/-- The four values of the `SubmissionStatus` enum (lines 8-12). -/
def statusValues : List String := ["success", "failed", "pending", "under_review"]

/-- Whether an outcome's `status` is one of the `SubmissionStatus` values. -/
def Outcome.statusEnumB (o : Outcome) : Bool :=
  match o.status with
  | Json.str s => statusValues.contains s
  | _ => false

/-- Modelled from the spec, for the refinement claim about the validator:
one check per required field, in order — the pair is
(check passed, failure message). -/
def fieldChecks (d : Json) (msg : String → String) (fs : List String) :
    List (Bool × String) :=
  fs.map (fun f => (d.hasKey f, msg f))

/-- Modelled from the spec, for the refinement claim about the validator:
the full ordered check list of section 4.1 — top-level required keys, then
`tin`, then `business_name`, then items non-empty, then the per-item fields
in item order, then the summary fields. -/
def specChecks (d : Json) : List (Bool × String) :=
  fieldChecks d topMsg required_fields ++
  ((d.get "business_info").hasKey "tin" && ((d.get "business_info").get "tin").truthy,
    "Missing TIN in business_info") ::
  ((d.get "business_info").hasKey "business_name" &&
      ((d.get "business_info").get "business_name").truthy,
    "Missing business_name in business_info") ::
  ((d.get "items").truthy && !((d.get "items").asArr.length == 0),
    "Invoice must contain at least one item") ::
  ((((d.get "items").asArr.enum).map
      (fun p => fieldChecks p.2 (itemMsg p.1) required_item_fields)).flatten ++
    fieldChecks (d.get "summary") summaryMsg required_summary_fields)

/-- Message of the first failing check of an ordered check list, if any. -/
def firstFailure (checks : List (Bool × String)) : Option String :=
  (checks.find? (fun c => !c.1)).map (fun c => c.2)

/-- Modelled from the spec (section 4.1): run the ordered checks,
short-circuit at the first failure and report its message, otherwise accept. -/
def validateSpec (d : Json) : Bool × String :=
  match firstFailure (specChecks d) with
  | some m => (false, m)
  | none => (true, "Validation successful")

/-- The `sample_invoice` of the module's `__main__` block, restricted to the
schema-relevant fields (a valid invoice document). -/
def sampleInvoice : Json :=
  Json.obj [
    ("invoice_id", Json.str "MPEPO-INV-2025-00123"),
    ("business_info", Json.obj [
      ("tin", Json.str "BUS-123456789"),
      ("business_name", Json.str "Mpepo Kitchen")]),
    ("transaction_date", Json.str "2025-09-23T14:30:00Z"),
    ("items", Json.arr [Json.obj [
      ("description", Json.str "Chicken Meal with Fries"),
      ("quantity", Json.num 2),
      ("unit_price", Json.num 15),
      ("tax_rate", Json.num 0)]]),
    ("summary", Json.obj [
      ("subtotal", Json.num 30),
      ("tax_amount", Json.num 4),
      ("total_amount", Json.num 34),
      ("currency", Json.str "KES")])]

/-- Unfolding lemma for the retry loop when every attempt still to run fails
retryably: the loop reaches exhaustion, appending every attempt to the
history and every attempt's events (with its backoff sleep) to the trace. -/
lemma retryGo_exhaust (inv : Json) (net : Nat → NetResult) (now : Nat → String)
    (max_retries : Nat) :
    ∀ remaining attempt acc evs,
      attempt + remaining = max_retries →
      (∀ i, attempt ≤ i → i < max_retries → retryableFailedAtB inv net now i = true) →
      retryGo inv net now max_retries remaining attempt acc evs =
        ({ outcome := exhaustOutcome max_retries,
           attempt_number := none,
           total_attempts := max_retries,
           all_attempts := acc ++ (List.range' attempt remaining).map (mkAttempt inv net now) },
         evs ++ ((List.range' attempt remaining).map
           (attemptTrace inv net now max_retries)).flatten) := by
  intro remaining
  induction remaining with
  | zero =>
    intro attempt acc evs _ _
    simp [retryGo]
  | succ r ih =>
    intro attempt acc evs hsum hfail
    have hlt : attempt < max_retries := by omega
    have hf := hfail attempt (Nat.le_refl _) hlt
    rw [retryableFailedAtB, Bool.and_eq_true] at hf
    have hsucc : (attemptOut inv net now attempt).success = false := by
      simpa using hf.1
    have hnr : (attemptOut inv net now attempt).nonRetryableB = false := by
      simpa using hf.2
    rw [retryGo]
    simp only [attemptOut] at hsucc hnr
    simp only [hsucc, hnr, if_false, Bool.false_eq_true]
    rw [ih (attempt + 1) _ _ (by omega)
      (fun i hi hi2 => hfail i (by omega) hi2)]
    rw [List.range'_succ]
    simp [mkAttempt, attemptTrace, attemptEvs, attemptOut, List.append_assoc]
    split <;> simp

/-- Unfolding lemma for the retry loop when the attempt of 0-based index `k`
is terminal (success, or a non-retryable error) and every earlier pending
attempt fails retryably: the loop returns at attempt `k` with the history up
to `k` and no sleep after attempt `k`. -/
lemma retryGo_stop (inv : Json) (net : Nat → NetResult) (now : Nat → String)
    (max_retries k : Nat) :
    ∀ remaining attempt acc evs,
      attempt + remaining = max_retries →
      attempt ≤ k → k < max_retries →
      (∀ i, attempt ≤ i → i < k → retryableFailedAtB inv net now i = true) →
      (attemptOut inv net now k).stopB = true →
      retryGo inv net now max_retries remaining attempt acc evs =
        ({ outcome := attemptOut inv net now k,
           attempt_number := some (k + 1),
           total_attempts := k + 1,
           all_attempts := acc ++
             (List.range' attempt (k + 1 - attempt)).map (mkAttempt inv net now) },
         evs ++ ((List.range' attempt (k - attempt)).map
             (fun i => attemptEvs inv net now i ++ [NetEvent.sleep (2 ^ i)])).flatten
           ++ attemptEvs inv net now k) := by
  intro remaining
  induction remaining with
  | zero =>
    intro attempt acc evs hsum hak hkm _ _
    omega
  | succ r ih =>
    intro attempt acc evs hsum hak hkm hpre hstop
    by_cases hk : attempt = k
    · subst hk
      have h1 : attempt + 1 - attempt = 1 := by omega
      have h0 : attempt - attempt = 0 := by omega
      rw [Outcome.stopB, Bool.or_eq_true] at hstop
      rw [retryGo]
      rcases hs : (attemptOut inv net now attempt).success with _ | _
      · have hnr : (attemptOut inv net now attempt).nonRetryableB = true := by
          rcases hstop with h | h
          · rw [hs] at h; exact absurd h (by simp)
          · exact h
        simp only [attemptOut] at hs hnr
        simp [hs, hnr, h1, h0, List.range'_one, mkAttempt, attemptOut, attemptEvs]
      · simp only [attemptOut] at hs
        simp [hs, h1, h0, List.range'_one, mkAttempt, attemptOut, attemptEvs]
    · have haltk : attempt < k := by omega
      have hf := hpre attempt (Nat.le_refl _) haltk
      rw [retryableFailedAtB, Bool.and_eq_true] at hf
      have hsucc : (attemptOut inv net now attempt).success = false := by
        simpa using hf.1
      have hnr : (attemptOut inv net now attempt).nonRetryableB = false := by
        simpa using hf.2
      rw [retryGo]
      simp only [attemptOut] at hsucc hnr
      simp only [hsucc, hnr, if_false, Bool.false_eq_true]
      rw [if_pos (by omega : attempt < max_retries - 1)]
      rw [ih (attempt + 1) _ _ (by omega) (by omega) hkm
        (fun i hi hi2 => hpre i (by omega) hi2) hstop]
      have h2 : k + 1 - attempt = (k + 1 - (attempt + 1)) + 1 := by omega
      have h3 : k - attempt = (k - (attempt + 1)) + 1 := by omega
      rw [h2, h3, List.range'_succ, List.range'_succ]
      simp [mkAttempt, attemptOut, attemptEvs, List.append_assoc]

/-- Computation rule of `firstFailure` on a cons cell. -/
lemma firstFailure_cons (b : Bool) (m : String) (l : List (Bool × String)) :
    firstFailure ((b, m) :: l) = if b then firstFailure l else some m := by
  rcases b <;> simp [firstFailure, List.find?]

/-- Computation rule of `firstFailure` on an append. -/
lemma firstFailure_append (l₁ l₂ : List (Bool × String)) :
    firstFailure (l₁ ++ l₂) = (firstFailure l₁).or (firstFailure l₂) := by
  rw [firstFailure, List.find?_append]
  cases h : l₁.find? (fun c => !c.1) <;> simp [firstFailure, h, Option.or]

/-- One required-field loop of the validator equals the first failure of the
corresponding check list of the spec. -/
lemma firstMissing_eq (d : Json) (msg : String → String) :
    ∀ fs, firstMissing d msg fs = firstFailure (fieldChecks d msg fs) := by
  intro fs
  induction fs with
  | nil => rfl
  | cons f rest ih =>
    rw [firstMissing, fieldChecks, List.map_cons]
    rw [firstFailure_cons]
    cases h : d.hasKey f <;> simp [h, ih, fieldChecks]

/-- The item loop of the validator equals the first failure of the flattened
per-item check lists of the spec, in item order. -/
lemma checkItems_eq (xs : List Json) :
    ∀ k, checkItems k xs = firstFailure
      (((xs.enumFrom k).map
        (fun p => fieldChecks p.2 (itemMsg p.1) required_item_fields)).flatten) := by
  induction xs with
  | nil => intro k; rfl
  | cons x rest ih =>
    intro k
    rw [checkItems, List.enumFrom_cons, List.map_cons, List.flatten_cons,
      firstFailure_append, ← firstMissing_eq]
    cases h : firstMissing x (itemMsg k) required_item_fields with
    | some m => simp [h, Option.or]
    | none => simp [h, Option.or, ih (k + 1)]

/-- Sleep durations distribute over append. -/
lemma sleepDurations_append (a b : List NetEvent) :
    sleepDurations (a ++ b) = sleepDurations a ++ sleepDurations b := by
  simp [sleepDurations]

/-- Sleep durations distribute over flatten. -/
lemma sleepDurations_flatten (L : List (List NetEvent)) :
    sleepDurations L.flatten = (L.map sleepDurations).flatten := by
  simp only [sleepDurations, List.filterMap_flatten]
  rfl

/-- A single call to `submit_invoice` never sleeps: its event trace is `[]`
(schema failure) or `[post]`. -/
lemma sleepDurations_submit (inv : Json) (net : NetResult) (now : String) :
    sleepDurations (submit_invoice inv net now).2 = [] := by
  simp only [submit_invoice]
  cases hv : (validate_invoice_schema inv).1
  · simp [sleepDurations]
  · cases net with
    | response sc ct body =>
      cases hct : strStartsWith ct "application/json"
      · simp [hct, sleepDurations]
      · cases body with
        | none => simp [hct, sleepDurations]
        | some b =>
          by_cases h200 : (sc == 200) = true
          · simp [hct, h200, sleepDurations]
          · by_cases h400 : (sc == 400) = true <;>
              simp [hct, h200, h400, sleepDurations]
    | timeout => simp [sleepDurations]
    | connection_error => simp [sleepDurations]
    | unexpected_error m => simp [sleepDurations]

/-- Specialisation of `sleepDurations_submit` to an attempt of a retry run. -/
lemma sleepDurations_attemptEvs (inv : Json) (net : Nat → NetResult)
    (now : Nat → String) (i : Nat) :
    sleepDurations (attemptEvs inv net now i) = [] :=
  sleepDurations_submit inv (net i) (now i)

/-- Flattening singleton lists is mapping. -/
lemma flatten_map_singleton (l : List Nat) (f : Nat → Nat) :
    (l.map (fun i => [f i])).flatten = l.map f := by
  induction l <;> simp_all

/-- C1: when schema validation fails on an invoice (for any reason the
validator can report), `submit_invoice` returns `success = false`,
`error = "invalid_schema"`, `status = "failed"` and the validator's message,
and — whatever the network would have answered — issues no HTTP POST:
its event trace is empty. -/
theorem submit_invoice_invalid_schema_no_post (inv : Json) (net : NetResult) (now : String)
    (h : (validate_invoice_schema inv).1 = false) :
    submit_invoice inv net now =
      ({ success := false, status := Json.str "failed", error := some "invalid_schema",
         message := Json.str (validate_invoice_schema inv).2,
         data := none, tax_authority_id := none, submitted_at := none }, []) := by
  simp [submit_invoice, h]

/-- Witness for C1: the empty document fails validation, and submission
returns the invalid-schema outcome with no POST event. -/
theorem submit_invoice_invalid_schema_no_post_witness :
    (validate_invoice_schema (Json.obj [])).1 = false ∧
    submit_invoice (Json.obj []) NetResult.timeout "2025-01-01 00:00:00" =
      ({ success := false, status := Json.str "failed", error := some "invalid_schema",
         message := Json.str (validate_invoice_schema (Json.obj [])).2,
         data := none, tax_authority_id := none, submitted_at := none }, []) :=
  ⟨rfl, submit_invoice_invalid_schema_no_post (Json.obj []) NetResult.timeout
    "2025-01-01 00:00:00" rfl⟩

/-- C2: when all `max_retries ≥ 1` attempts fail retryably,
`submit_invoice_with_retry` returns the exhaustion outcome
(`success = false`, `error = "all_retries_failed"`),
`total_attempts = max_retries`, and a history of length `max_retries` whose
`i`-th entry is exactly the `i`-th attempt's outcome (its original error tag
kept) tagged with the 1-based attempt number `i + 1`. -/
theorem submit_invoice_with_retry_exhaustion (inv : Json) (net : Nat → NetResult)
    (now : Nat → String) (max_retries : Nat) (_hmr : 1 ≤ max_retries)
    (hfail : ∀ i, i < max_retries → retryableFailedAtB inv net now i = true) :
    (submit_invoice_with_retry inv net now max_retries).1 =
      { outcome := exhaustOutcome max_retries,
        attempt_number := none,
        total_attempts := max_retries,
        all_attempts := (List.range max_retries).map (mkAttempt inv net now) } ∧
    (submit_invoice_with_retry inv net now max_retries).1.all_attempts.length
      = max_retries := by
  have h := retryGo_exhaust inv net now max_retries max_retries 0 [] [] (by omega)
    (fun i _ hi => hfail i hi)
  rw [submit_invoice_with_retry, h]
  simp [List.range_eq_range']

/-- Witness for C2: three timeouts with `max_retries = 3` give the
exhaustion outcome with a history of the three timeout attempts. -/
theorem submit_invoice_with_retry_exhaustion_witness :
    ((1 ≤ 3) ∧ ∀ i, i < 3 →
      retryableFailedAtB sampleInvoice (fun _ => NetResult.timeout)
        (fun _ => "2025-01-01 00:00:00") i = true) ∧
    ((submit_invoice_with_retry sampleInvoice (fun _ => NetResult.timeout)
        (fun _ => "2025-01-01 00:00:00") 3).1 =
      { outcome := exhaustOutcome 3,
        attempt_number := none,
        total_attempts := 3,
        all_attempts := (List.range 3).map (mkAttempt sampleInvoice
          (fun _ => NetResult.timeout) (fun _ => "2025-01-01 00:00:00")) } ∧
      (submit_invoice_with_retry sampleInvoice (fun _ => NetResult.timeout)
        (fun _ => "2025-01-01 00:00:00") 3).1.all_attempts.length = 3) :=
  ⟨⟨by decide, by decide⟩,
    submit_invoice_with_retry_exhaustion sampleInvoice (fun _ => NetResult.timeout)
      (fun _ => "2025-01-01 00:00:00") 3 (by decide) (by decide)⟩

/-- C3: if every attempt before 0-based index `k` fails retryably and the
attempt at `k` fails with a non-retryable error, the retry loop stops right
there regardless of remaining attempts and returns that attempt's outcome
(error tag preserved) with `total_attempts = k + 1` and a history of length
`k + 1`; in particular a first-attempt `validation_error` gives
`total_attempts = 1` (see the witness). -/
theorem submit_invoice_with_retry_nonretryable_stops (inv : Json) (net : Nat → NetResult)
    (now : Nat → String) (max_retries k : Nat)
    (hk : k < max_retries)
    (hpre : ∀ i, i < k → retryableFailedAtB inv net now i = true)
    (hsucc : (attemptOut inv net now k).success = false)
    (hnr : (attemptOut inv net now k).nonRetryableB = true) :
    (submit_invoice_with_retry inv net now max_retries).1 =
      { outcome := attemptOut inv net now k,
        attempt_number := some (k + 1),
        total_attempts := k + 1,
        all_attempts := (List.range (k + 1)).map (mkAttempt inv net now) } := by
  have h := retryGo_stop inv net now max_retries k max_retries 0 [] [] (by omega)
    (by omega) hk (fun i _ hi => hpre i hi)
    (by rw [Outcome.stopB, hsucc, hnr]; rfl)
  rw [submit_invoice_with_retry, h]
  simp [List.range_eq_range']

/-- Witness for C3: an HTTP 400 on the first attempt (a `validation_error`,
non-retryable) stops a `max_retries = 3` run after exactly one attempt. -/
theorem submit_invoice_with_retry_nonretryable_stops_witness :
    ((0 < 3) ∧
      (attemptOut sampleInvoice
        (fun _ => NetResult.response 400 "application/json" (some (Json.obj [])))
        (fun _ => "2025-01-01 00:00:00") 0).success = false ∧
      (attemptOut sampleInvoice
        (fun _ => NetResult.response 400 "application/json" (some (Json.obj [])))
        (fun _ => "2025-01-01 00:00:00") 0).nonRetryableB = true) ∧
    (submit_invoice_with_retry sampleInvoice
        (fun _ => NetResult.response 400 "application/json" (some (Json.obj [])))
        (fun _ => "2025-01-01 00:00:00") 3).1 =
      { outcome := attemptOut sampleInvoice
          (fun _ => NetResult.response 400 "application/json" (some (Json.obj [])))
          (fun _ => "2025-01-01 00:00:00") 0,
        attempt_number := some 1,
        total_attempts := 1,
        all_attempts := (List.range 1).map (mkAttempt sampleInvoice
          (fun _ => NetResult.response 400 "application/json" (some (Json.obj [])))
          (fun _ => "2025-01-01 00:00:00")) } :=
  ⟨⟨by decide, by decide, by decide⟩,
    submit_invoice_with_retry_nonretryable_stops sampleInvoice
      (fun _ => NetResult.response 400 "application/json" (some (Json.obj [])))
      (fun _ => "2025-01-01 00:00:00") 3 0 (by decide)
      (fun i hi => absurd hi (Nat.not_lt_zero i)) (by decide) (by decide)⟩

/-- C4: the backoff schedule.  (a) When all `max_retries` attempts fail
retryably, the sleeps of the run are exactly `2^0, 2^1, …, 2^(max_retries-2)`
— one sleep of `2^i` after the attempt of 0-based index `i` for each
`i < max_retries - 1`, none after the final attempt.  (b) When the attempt at
index `k` is terminal (success or non-retryable error) after `k` retryable
failures, the sleeps are exactly `2^0, …, 2^(k-1)` — no sleep follows the
terminal attempt.  For three failing attempts, (a) yields the delays 1, 2
(see the witness). -/
theorem submit_invoice_with_retry_backoff (inv : Json) (net : Nat → NetResult)
    (now : Nat → String) (max_retries : Nat) (_hmr : 1 ≤ max_retries) :
    ((∀ i, i < max_retries → retryableFailedAtB inv net now i = true) →
      sleepDurations (submit_invoice_with_retry inv net now max_retries).2 =
        (List.range (max_retries - 1)).map (fun i => 2 ^ i)) ∧
    (∀ k, k < max_retries →
      (∀ i, i < k → retryableFailedAtB inv net now i = true) →
      (attemptOut inv net now k).stopB = true →
      sleepDurations (submit_invoice_with_retry inv net now max_retries).2 =
        (List.range k).map (fun i => 2 ^ i)) := by
  constructor
  · intro hfail
    have h := retryGo_exhaust inv net now max_retries max_retries 0 [] [] (by omega)
      (fun i _ hi => hfail i hi)
    rw [submit_invoice_with_retry, h]
    simp only [List.nil_append]
    rw [sleepDurations_flatten, List.map_map]
    have hstep : ∀ i ∈ List.range' 0 max_retries,
        (sleepDurations ∘ attemptTrace inv net now max_retries) i =
          (fun i => if i < max_retries - 1 then [2 ^ i] else []) i := by
      intro i _
      simp only [Function.comp, attemptTrace, sleepDurations_append,
        sleepDurations_attemptEvs, List.nil_append]
      split <;> simp [sleepDurations]
    rw [List.map_congr_left hstep, ← List.range_eq_range']
    obtain ⟨m, rfl⟩ : ∃ m, max_retries = m + 1 := ⟨max_retries - 1, by omega⟩
    rw [List.range_succ, List.map_append, List.flatten_append]
    simp only [Nat.add_sub_cancel]
    have hlast : (List.map (fun i => if i < m then [2 ^ i] else []) [m]).flatten = [] := by
      simp
    rw [hlast, List.append_nil]
    rw [List.map_congr_left (fun i hi => by
      rw [if_pos (List.mem_range.mp hi)])]
    exact flatten_map_singleton (List.range m) (fun i => 2 ^ i)
  · intro k hk hpre hstop
    have h := retryGo_stop inv net now max_retries k max_retries 0 [] [] (by omega)
      (by omega) hk (fun i _ hi => hpre i hi) hstop
    rw [submit_invoice_with_retry, h]
    simp only [List.nil_append, Nat.sub_zero]
    rw [sleepDurations_append, sleepDurations_attemptEvs, List.append_nil,
      sleepDurations_flatten, List.map_map]
    have hstep : ∀ i ∈ List.range' 0 k,
        (sleepDurations ∘ fun i => attemptEvs inv net now i ++ [NetEvent.sleep (2 ^ i)]) i =
          (fun i => [2 ^ i]) i := by
      intro i _
      simp only [Function.comp, sleepDurations_append, sleepDurations_attemptEvs,
        List.nil_append]
      rfl
    rw [List.map_congr_left hstep, ← List.range_eq_range']
    exact flatten_map_singleton (List.range k) (fun i => 2 ^ i)

/-- Witness for C4: a run of 3 timeouts sleeps exactly 1 then 2 time units. -/
theorem submit_invoice_with_retry_backoff_witness :
    (1 ≤ 3) ∧
    sleepDurations (submit_invoice_with_retry sampleInvoice (fun _ => NetResult.timeout)
      (fun _ => "2025-01-01 00:00:00") 3).2 = [1, 2] :=
  ⟨by decide, by
    have h := (submit_invoice_with_retry_backoff sampleInvoice (fun _ => NetResult.timeout)
      (fun _ => "2025-01-01 00:00:00") 3 (by decide)).1 (by decide)
    exact h.trans (by decide)⟩

/-- C5: `validate_invoice_schema` is exactly the ordered, short-circuiting
check cascade of the spec: the fixed order is top-level keys, `tin`,
`business_name`, items non-empty, per-item fields in item order, summary
fields; the first failing check's message is returned, and when every check
passes the result is `(true, "Validation successful")`.  `validateSpec` is
the check list written from the spec's words; the theorem is the refinement
equality. -/
theorem validate_invoice_schema_eq_spec (d : Json) :
    validate_invoice_schema d = validateSpec d := by
  have hneg : (!(d.get "items").truthy || (d.get "items").asArr.length == 0) =
      !((d.get "items").truthy && !((d.get "items").asArr.length == 0)) := by
    cases (d.get "items").truthy <;> cases ((d.get "items").asArr.length == 0) <;> rfl
  rw [validate_invoice_schema, validateSpec, specChecks,
    firstFailure_append, ← firstMissing_eq]
  cases h : firstMissing d topMsg required_fields with
  | some m => simp [Option.or]
  | none =>
    simp only [Option.or, firstFailure_cons]
    cases h1 : ((d.get "business_info").hasKey "tin" &&
        ((d.get "business_info").get "tin").truthy) with
    | false => simp
    | true =>
      simp only [Bool.not_true, Bool.false_eq_true, if_false, if_true]
      cases h2 : ((d.get "business_info").hasKey "business_name" &&
          ((d.get "business_info").get "business_name").truthy) with
      | false => simp
      | true =>
        simp only [Bool.not_true, Bool.false_eq_true, if_false, if_true]
        rw [hneg]
        cases h3 : ((d.get "items").truthy && !((d.get "items").asArr.length == 0)) with
        | false => simp
        | true =>
          simp only [Bool.not_true, Bool.false_eq_true, if_false, if_true]
          rw [firstFailure_append]
          rw [show ((d.get "items").asArr.enum) = ((d.get "items").asArr.enumFrom 0) from rfl]
          rw [← checkItems_eq, ← firstMissing_eq]
          cases h4 : checkItems 0 (d.get "items").asArr with
          | some m => simp [Option.or]
          | none =>
            cases h5 : firstMissing (d.get "summary") summaryMsg required_summary_fields <;>
              simp [Option.or]

/-- C6 (amended): for a valid invoice and an HTTP 200 response with a JSON
content type and body `b`, `submit_invoice` returns `success = true`,
`status` from the body defaulting to `"approved"`, `tax_authority_id` from
the body defaulting to `"Unknown"` (capitalised — not `"unknown"` as the
claim stated), `message` from the body defaulting to the fixed sentence, the
parsed body as `data`, and the submission timestamp. -/
theorem submit_invoice_http200_success (inv : Json) (ct : String) (b : Json) (now : String)
    (hv : (validate_invoice_schema inv).1 = true)
    (hct : strStartsWith ct "application/json" = true) :
    submit_invoice inv (NetResult.response 200 ct (some b)) now =
      ({ success := true,
         status := b.getD "status" (Json.str "approved"),
         error := none,
         message := b.getD "message"
           (Json.str "Invoice submitted successfully to tax authority"),
         data := some b,
         tax_authority_id := some (b.getD "tax_authority_id" (Json.str "Unknown")),
         submitted_at := some now }, [NetEvent.post]) := by
  simp [submit_invoice, hv, hct]

/-- Witness for C6: the spec's own example — HTTP 200 with body
`{tax_authority_id: TA-1, status: approved}` gives `success = true`,
`status = "approved"`, `tax_authority_id = "TA-1"`. -/
theorem submit_invoice_http200_success_witness :
    ((validate_invoice_schema sampleInvoice).1 = true ∧
      strStartsWith "application/json" "application/json" = true) ∧
    submit_invoice sampleInvoice (NetResult.response 200 "application/json"
        (some (Json.obj [("tax_authority_id", Json.str "TA-1"),
          ("status", Json.str "approved")]))) "2025-01-01 00:00:00" =
      ({ success := true,
         status := Json.str "approved",
         error := none,
         message := Json.str "Invoice submitted successfully to tax authority",
         data := some (Json.obj [("tax_authority_id", Json.str "TA-1"),
           ("status", Json.str "approved")]),
         tax_authority_id := some (Json.str "TA-1"),
         submitted_at := some "2025-01-01 00:00:00" }, [NetEvent.post]) :=
  ⟨⟨by decide, by decide⟩,
    submit_invoice_http200_success sampleInvoice "application/json"
      (Json.obj [("tax_authority_id", Json.str "TA-1"), ("status", Json.str "approved")])
      "2025-01-01 00:00:00" (by decide) (by decide)⟩

/-- Counterexample for C6 as stated: on a 200 JSON response whose body lacks
`tax_authority_id`, the outcome's `tax_authority_id` is the string
`"Unknown"` (source line 129: `result.get('tax_authority_id', 'Unknown')`),
not the `"unknown"` the claim asserts as default. -/
theorem submit_invoice_unknown_default_cex :
    (submit_invoice sampleInvoice (NetResult.response 200 "application/json"
        (some (Json.obj []))) "2025-01-01 00:00:00").1.tax_authority_id =
      some (Json.str "Unknown") ∧
    ¬ (submit_invoice sampleInvoice (NetResult.response 200 "application/json"
        (some (Json.obj []))) "2025-01-01 00:00:00").1.tax_authority_id =
      some (Json.str "unknown") := by
  constructor
  · rfl
  · intro h
    have h1 : some (Json.str "Unknown") = some (Json.str "unknown") := h
    have h2 := Option.some.inj h1
    injection h2 with h3
    exact absurd h3 (by decide)

/-- C7: for a valid invoice, a response whose declared content type does not
start with `application/json` is classified as `error = "invalid_response"`,
`status = "failed"`, whatever the HTTP status code (`sc` is universally
quantified, the witness uses 200); the outcome does not depend on the body
(`body` is universally quantified), i.e. the body is never parsed as an
outcome payload. -/
theorem submit_invoice_non_json_invalid_response (inv : Json) (sc : Nat) (ct : String)
    (body : Option Json) (now : String)
    (hv : (validate_invoice_schema inv).1 = true)
    (hct : strStartsWith ct "application/json" = false) :
    submit_invoice inv (NetResult.response sc ct body) now =
      ({ success := false, status := Json.str "failed",
         error := some "invalid_response",
         message := Json.str ("Server returned non-JSON response: " ++ toString sc),
         data := none, tax_authority_id := none, submitted_at := none },
       [NetEvent.post]) := by
  simp [submit_invoice, hv, hct]

/-- Witness for C7: an HTTP 200 text/html response is still classified as
`invalid_response`. -/
theorem submit_invoice_non_json_invalid_response_witness :
    ((validate_invoice_schema sampleInvoice).1 = true ∧
      strStartsWith "text/html" "application/json" = false) ∧
    submit_invoice sampleInvoice (NetResult.response 200 "text/html"
        (some (Json.obj []))) "2025-01-01 00:00:00" =
      ({ success := false, status := Json.str "failed",
         error := some "invalid_response",
         message := Json.str "Server returned non-JSON response: 200",
         data := none, tax_authority_id := none, submitted_at := none },
       [NetEvent.post]) :=
  ⟨⟨by decide, by decide⟩, by
    have h := submit_invoice_non_json_invalid_response sampleInvoice 200 "text/html"
      (some (Json.obj [])) "2025-01-01 00:00:00" (by decide) (by decide)
    exact h.trans (by rfl)⟩

/-- C8 (amended): for a valid invoice and an HTTP 400 JSON response with body
`b`, `submit_invoice` returns `success = false`, `error = "validation_error"`,
`status = "failed"`, with message `"Tax authority validation failed: "`
followed by the body's `error` field, defaulting to `"Validation error"`
(capitalised — not `"validation error"` as the claim stated; source line 144:
`result.get('error', 'Validation error')`). -/
theorem submit_invoice_http400_validation_error (inv : Json) (ct : String) (b : Json)
    (now : String)
    (hv : (validate_invoice_schema inv).1 = true)
    (hct : strStartsWith ct "application/json" = true) :
    submit_invoice inv (NetResult.response 400 ct (some b)) now =
      ({ success := false, status := Json.str "failed",
         error := some "validation_error",
         message := Json.str ("Tax authority validation failed: " ++
           (b.getD "error" (Json.str "Validation error")).pyStr),
         data := none, tax_authority_id := none, submitted_at := none },
       [NetEvent.post]) := by
  simp [submit_invoice, hv, hct]

/-- Witness for C8: the spec's own example — body `{error: bad tin}` yields
a `validation_error` outcome whose message contains `"bad tin"`. -/
theorem submit_invoice_http400_validation_error_witness :
    ((validate_invoice_schema sampleInvoice).1 = true ∧
      strStartsWith "application/json" "application/json" = true) ∧
    submit_invoice sampleInvoice (NetResult.response 400 "application/json"
        (some (Json.obj [("error", Json.str "bad tin")]))) "2025-01-01 00:00:00" =
      ({ success := false, status := Json.str "failed",
         error := some "validation_error",
         message := Json.str "Tax authority validation failed: bad tin",
         data := none, tax_authority_id := none, submitted_at := none },
       [NetEvent.post]) ∧
    strContains "Tax authority validation failed: bad tin" "bad tin" = true :=
  ⟨⟨by decide, by decide⟩, by
    have h := submit_invoice_http400_validation_error sampleInvoice "application/json"
      (Json.obj [("error", Json.str "bad tin")]) "2025-01-01 00:00:00"
      (by decide) (by decide)
    exact ⟨h.trans (by rfl), by decide⟩⟩

/-- Counterexample for C8 as stated: on a 400 JSON response whose body has no
`error` field, the message is
`"Tax authority validation failed: Validation error"`, which does not
contain the claim's default string `"validation error"` (it contains the
capitalised `"Validation error"`). -/
theorem submit_invoice_validation_default_cex :
    (submit_invoice sampleInvoice (NetResult.response 400 "application/json"
        (some (Json.obj []))) "2025-01-01 00:00:00").1.message =
      Json.str "Tax authority validation failed: Validation error" ∧
    strContains "Tax authority validation failed: Validation error" "validation error"
      = false ∧
    strContains "Tax authority validation failed: Validation error" "Validation error"
      = true :=
  ⟨rfl, by decide, by decide⟩

/-- C9 (amended): every FAILURE outcome of `submit_invoice` (and hence every
failed attempt and final failure of the retry loop) has `status = "failed"`,
which is one of the `SubmissionStatus` enum values; success outcomes instead
carry the body's `status` (default `"approved"`), which need not be in the
enum — see the counterexample. -/
theorem submit_invoice_failure_status_failed (inv : Json) (net : NetResult) (now : String)
    (h : (submit_invoice inv net now).1.success = false) :
    (submit_invoice inv net now).1.status = Json.str "failed" ∧
    (submit_invoice inv net now).1.statusEnumB = true := by
  cases hv : (validate_invoice_schema inv).1 with
  | false =>
    constructor <;> simp [submit_invoice, hv, Outcome.statusEnumB, statusValues]
  | true =>
    cases net with
    | response sc ct body =>
      cases hct : strStartsWith ct "application/json" with
      | false =>
        constructor <;> simp [submit_invoice, hv, hct, Outcome.statusEnumB, statusValues]
      | true =>
        cases body with
        | none =>
          constructor <;> simp [submit_invoice, hv, hct, Outcome.statusEnumB, statusValues]
        | some b =>
          by_cases h200 : (sc == 200) = true
          · exfalso
            simp [submit_invoice, hv, hct, h200] at h
          · by_cases h400 : (sc == 400) = true
            · constructor <;>
                simp [submit_invoice, hv, hct, h200, h400, Outcome.statusEnumB, statusValues]
            · constructor <;>
                simp [submit_invoice, hv, hct, h200, h400, Outcome.statusEnumB, statusValues]
    | timeout =>
      constructor <;> simp [submit_invoice, hv, Outcome.statusEnumB, statusValues]
    | connection_error =>
      constructor <;> simp [submit_invoice, hv, Outcome.statusEnumB, statusValues]
    | unexpected_error m =>
      constructor <;> simp [submit_invoice, hv, Outcome.statusEnumB, statusValues]

/-- Witness for C9 (amended): a timeout outcome fails and its status,
`"failed"`, is in the enum. -/
theorem submit_invoice_failure_status_failed_witness :
    (submit_invoice sampleInvoice NetResult.timeout "2025-01-01 00:00:00").1.success
      = false ∧
    ((submit_invoice sampleInvoice NetResult.timeout "2025-01-01 00:00:00").1.status =
      Json.str "failed" ∧
    (submit_invoice sampleInvoice NetResult.timeout
      "2025-01-01 00:00:00").1.statusEnumB = true) :=
  ⟨by decide, submit_invoice_failure_status_failed sampleInvoice NetResult.timeout
    "2025-01-01 00:00:00" (by decide)⟩

/-- Counterexample for C9 as stated: a 200 JSON response with an empty body
gives a success outcome whose status is `"approved"` (line 130 defaults
`status` to `'approved'`), which is not one of
`success | failed | pending | under_review`. -/
theorem submit_invoice_status_enum_cex :
    (submit_invoice sampleInvoice (NetResult.response 200 "application/json"
        (some (Json.obj []))) "2025-01-01 00:00:00").1.status = Json.str "approved" ∧
    (submit_invoice sampleInvoice (NetResult.response 200 "application/json"
        (some (Json.obj []))) "2025-01-01 00:00:00").1.statusEnumB = false :=
  ⟨rfl, rfl⟩

/-- C10: with `max_retries = 0` the retry loop body never runs: no attempt,
no validation, no POST and no sleep (the event trace is empty), and the
result is the exhaustion dict with `success = false`,
`error = "all_retries_failed"`, `status = "failed"`, `total_attempts = 0`
and an empty history. -/
theorem submit_invoice_with_retry_zero (inv : Json) (net : Nat → NetResult)
    (now : Nat → String) :
    submit_invoice_with_retry inv net now 0 =
      ({ outcome :=
           { success := false, status := Json.str "failed",
             error := some "all_retries_failed",
             message := Json.str "All 0 retry attempts failed",
             data := none, tax_authority_id := none, submitted_at := none },
         attempt_number := none, total_attempts := 0, all_attempts := [] }, []) := rfl

end MpepoTax
